import Mathlib

/-!
Verification of the babel plugin "component-tagger-topmost" (src/index.js).

The plugin walks one parsed file, collects the identities of the opening
tags of "topmost" JSX elements per component into a per-file set
(state.topmostElements), and then a JSXOpeningElement pass appends a
"__file-path" attribute to every opening tag in that set.

The embedding below mirrors src/index.js:
  - JSX-bearing expressions become the inductive type Expr, discriminated
    exactly by the babel t.is* checks the plugin performs;
  - node identity (the JS Set stores AST-node references) becomes a
    synthetic numeric id on each opening tag;
  - a babel path.traverse over a component subtree becomes the list of
    visited nodes in traversal order (the Site type), folded through the
    visitor callbacks;
  - the top-level visitor dispatch (FunctionDeclaration /
    VariableDeclarator / everything else) becomes the Decl type.
-/

namespace ComponentTagger

/-- One attribute node on an opening tag: a named JSXAttribute with a
string-literal value, or a JSXSpreadAttribute. -/
inductive AttrNode where
  | jsxAttribute (name : String) (value : String)
  | spreadAttribute
deriving DecidableEq, Repr

/-- The opening tag of a JSX element: a synthetic identity standing for
the reference identity of the AST node, plus its attribute list. -/
structure Opening where
  id : Nat
  attributes : List AttrNode
deriving DecidableEq, Repr

/-- Expressions, discriminated the way src/index.js discriminates them
with t.isJSXElement, t.isJSXFragment, t.isJSXExpressionContainer,
t.isLogicalExpression and t.isConditionalExpression. The constructor
otherExpr stands for every other shape (identifiers, literals, null,
strings, calls, JSX text children, ...). Fragment children are Exprs:
an element child is jsxElement, an embedded-expression child is
jsxExpressionContainer, anything else falls under otherExpr. -/
inductive Expr where
  | jsxElement (openingElement : Opening)
  | jsxFragment (children : List Expr)
  | jsxExpressionContainer (expression : Expr)
  | logicalExpression (operator : String) (left right : Expr)
  | conditionalExpression (test consequent alternate : Expr)
  | otherExpr

/-- Mirror of the t.isJSXElement check. -/
def isJSXElement : Expr → Bool
  | Expr.jsxElement _ => true
  | _ => false

/-- Mirror of the t.isJSXFragment check. -/
def isJSXFragment : Expr → Bool
  | Expr.jsxFragment _ => true
  | _ => false

/-- Mirror of the combined check t.isLogicalExpression(e) together with
e.operator being the logical-and operator. -/
def isAndLogicalExpression : Expr → Bool
  | Expr.logicalExpression operator _ _ => operator == "&&"
  | _ => false

/-- The per-file set state.topmostElements, modelled by the list of the
identities of the opening tags added so far (JS Set membership is
reference identity; only membership matters). -/
abbrev TopmostSet := List Nat

/-- Translation of extractJSXFromLogicalAnd (src/index.js lines 16-25):
if the expression is a JSX element return it, if it is a logical
expression with the logical-and operator recurse into the right operand,
otherwise return null. The JS caller always reads .openingElement off
the returned element, so the embedding returns the opening tag. -/
def extractJSXFromLogicalAnd : Expr → Option Opening
  | Expr.jsxElement op => some op
  | Expr.logicalExpression operator _ right =>
      if operator = "&&" then extractJSXFromLogicalAnd right else none
  | _ => none

/-- One iteration of the child loop of tagFragmentChildren
(src/index.js lines 32-64), threading the pair
(state.topmostElements, foundTopmost). -/
def tagFragmentChild (st : TopmostSet × Bool) (child : Expr) :
    TopmostSet × Bool :=
  match child with
  | Expr.jsxElement op => (op.id :: st.1, true)
  | Expr.jsxExpressionContainer expression =>
      match expression with
      | Expr.jsxElement op => (op.id :: st.1, true)
      | Expr.logicalExpression operator left right =>
          if operator = "&&" then
            match extractJSXFromLogicalAnd
                (Expr.logicalExpression operator left right) with
            | some op => (op.id :: st.1, true)
            | none => st
          else st
      | Expr.conditionalExpression _ consequent alternate =>
          let st1 :=
            match consequent with
            | Expr.jsxElement op => (op.id :: st.1, true)
            | _ => st
          match alternate with
          | Expr.jsxElement op => (op.id :: st1.1, true)
          | _ => st1
      | _ => st
  | _ => st

/-- Translation of tagFragmentChildren (src/index.js lines 28-65): if
the node is a fragment, fold the child loop over its children, else do
nothing. -/
def tagFragmentChildren (fragment : Expr) (st : TopmostSet × Bool) :
    TopmostSet × Bool :=
  match fragment with
  | Expr.jsxFragment children => children.foldl tagFragmentChild st
  | _ => st

/-- A node visited by the path.traverse call inside findTopmostJSX, in
traversal order: a ReturnStatement (with its argument), an
ArrowFunctionExpression with an expression body, or a
JSXExpressionContainer, split by whether its parent is a JSXAttribute
(the check at src/index.js line 103). -/
inductive Site where
  | returnStatement (argument : Expr)
  | arrowFunctionBody (body : Expr)
  | attributeContainer (expression : Expr)
  | childContainer (expression : Expr)

/-- The three visitor callbacks registered by findTopmostJSX
(src/index.js lines 68-126), applied to one visited node. -/
def visitSite (st : TopmostSet × Bool) (site : Site) : TopmostSet × Bool :=
  match site with
  | Site.returnStatement argument =>
      if st.2 then st
      else
        match argument with
        | Expr.jsxElement op => (op.id :: st.1, true)
        | Expr.jsxFragment children =>
            tagFragmentChildren (Expr.jsxFragment children) st
        | _ => st
  | Site.arrowFunctionBody body =>
      if st.2 then st
      else
        match body with
        | Expr.jsxElement op => (op.id :: st.1, true)
        | Expr.jsxFragment children =>
            tagFragmentChildren (Expr.jsxFragment children) st
        | _ => st
  | Site.attributeContainer expression =>
      match expression with
      | Expr.jsxElement op => (op.id :: st.1, st.2)
      | Expr.logicalExpression operator left right =>
          if operator = "&&" then
            match extractJSXFromLogicalAnd
                (Expr.logicalExpression operator left right) with
            | some op => (op.id :: st.1, st.2)
            | none => st
          else st
      | Expr.conditionalExpression _ consequent alternate =>
          let st1 :=
            match consequent with
            | Expr.jsxElement op => (op.id :: st.1, st.2)
            | _ => st
          match alternate with
          | Expr.jsxElement op => (op.id :: st1.1, st1.2)
          | _ => st1
      | _ => st
  | Site.childContainer _ => st

/-- Translation of findTopmostJSX (src/index.js lines 12-127): start a
fresh local foundTopmost := false, traverse the component subtree
folding the visitor over the visited nodes, and keep the accumulated
per-file topmost set. -/
def findTopmostJSX (sites : List Site) (topmost : TopmostSet) : TopmostSet :=
  (sites.foldl visitSite (topmost, false)).1

/-- A top-level construct as seen by the plugin visitor dispatch
(src/index.js lines 155-165): a FunctionDeclaration, a
VariableDeclarator (recording whether its initializer is an arrow or
function expression), or any other construct; each carries the nodes a
traversal of its subtree would visit. -/
inductive Decl where
  | functionDeclaration (sites : List Site)
  | variableDeclarator (initIsFunctionLike : Bool) (sites : List Site)
  | otherTopLevel (sites : List Site)

/-- Dispatch for one top-level construct: FunctionDeclarations are
scanned, VariableDeclarators only when their initializer is an arrow or
function expression, nothing else is scanned. -/
def scanDecl (topmost : TopmostSet) (d : Decl) : TopmostSet :=
  match d with
  | Decl.functionDeclaration sites => findTopmostJSX sites topmost
  | Decl.variableDeclarator initIsFunctionLike sites =>
      if initIsFunctionLike then findTopmostJSX sites topmost else topmost
  | Decl.otherTopLevel _ => topmost

/-- The whole-file scan: Program.enter initializes an empty topmost set,
then the top-level visitors run in traversal order. -/
def collectTopmost (decls : List Decl) : TopmostSet :=
  decls.foldl scanDecl []

/-- Prefix test on character lists, the building block for the JS
String.prototype.indexOf the plugin calls. -/
def startsWithChars : List Char → List Char → Bool
  | _, [] => true
  | [], _ :: _ => false
  | h :: hs, n :: ns => if h = n then startsWithChars hs ns else false

/-- JS String.prototype.indexOf, restricted to what the plugin uses:
the least index at which the needle occurs in the haystack (with i the
number of characters already consumed), or none, standing for -1. -/
def indexOfFrom (hay needle : List Char) (i : Nat) : Option Nat :=
  if startsWithChars hay needle then some i
  else
    match hay with
    | [] => none
    | _ :: t => indexOfFrom t needle (i + 1)

/-- The path computation of Program.enter (src/index.js lines 134-151):
state.filePath is the filename (empty when absent, the JS fallback
value of the expression filename-or-empty-string), trimmed to the
substring starting at the first occurrence of the marker "src/" when
the marker occurs. -/
def normalizePath (filename : Option String) : String :=
  let fp := match filename with | some s => s | none => ""
  match indexOfFrom fp.data "src/".data 0 with
  | some srcIndex => String.mk (fp.data.drop srcIndex)
  | none => fp

/-- The predicate tested on each attribute by the duplicate check of the
JSXOpeningElement visitor (src/index.js lines 173-177): a JSXAttribute
whose name is "__file-path". -/
def isFilePathAttr : AttrNode → Bool
  | AttrNode.jsxAttribute name _ => name == "__file-path"
  | AttrNode.spreadAttribute => false

/-- The duplicate check itself: attributes.some of the predicate. -/
def hasFilePathAttribute (attributes : List AttrNode) : Bool :=
  attributes.any isFilePathAttr

/-- How many "__file-path" attributes an attribute list carries (used to
state the no-duplicate property). -/
def countFilePathAttributes (attributes : List AttrNode) : Nat :=
  attributes.countP isFilePathAttr

/-- The JSXOpeningElement visitor (src/index.js lines 168-188) as the
transformation of one opening tag: if its identity is in the topmost
set, compute the attribute value (state.filePath, or "unknown" when
that is empty, the JS falsy fallback), and append the attribute unless
one with the reserved name is already present. -/
def injectOpening (topmost : TopmostSet) (statePath : String)
    (op : Opening) : Opening :=
  if op.id ∈ topmost then
    let filePath := if statePath = "" then "unknown" else statePath
    if hasFilePathAttribute op.attributes then op
    else { op with attributes :=
            op.attributes ++ [AttrNode.jsxAttribute "__file-path" filePath] }
  else op

/-- The topmost set only grows: one fragment-child step never removes a
marked identity (the data-model invariant that the set only grows). -/
theorem tagFragmentChild_mem (st : TopmostSet × Bool) (child : Expr)
    (x : Nat) (hx : x ∈ st.1) : x ∈ (tagFragmentChild st child).1 := by
  cases child
  case jsxExpressionContainer expression =>
    cases expression
    case jsxElement op => exact List.mem_cons_of_mem _ hx
    case logicalExpression operator left right =>
      show x ∈ (if operator = "&&" then
          match extractJSXFromLogicalAnd
              (Expr.logicalExpression operator left right) with
          | some op => (op.id :: st.1, true)
          | none => st
        else st).1
      split
      · split
        · exact List.mem_cons_of_mem _ hx
        · exact hx
      · exact hx
    case conditionalExpression t c a =>
      cases c <;> cases a <;>
        first
          | exact hx
          | exact List.mem_cons_of_mem _ hx
          | exact List.mem_cons_of_mem _ (List.mem_cons_of_mem _ hx)
    all_goals exact hx
  case jsxElement op => exact List.mem_cons_of_mem _ hx
  all_goals exact hx

/-- The topmost set only grows across the whole fragment-child loop. -/
theorem foldl_tagFragmentChild_mem (children : List Expr)
    (st : TopmostSet × Bool) (x : Nat) (hx : x ∈ st.1) :
    x ∈ (List.foldl tagFragmentChild st children).1 := by
  induction children generalizing st with
  | nil => exact hx
  | cons c cs ih => exact ih _ (tagFragmentChild_mem st c x hx)

/-- The topmost set only grows across one visited node. -/
theorem visitSite_mem (st : TopmostSet × Bool) (s : Site) (x : Nat)
    (hx : x ∈ st.1) : x ∈ (visitSite st s).1 := by
  cases s
  case returnStatement argument =>
    cases argument <;> cases hb : st.2 <;>
      simp only [visitSite, hb, if_true, if_false, Bool.false_eq_true,
        ite_true, ite_false] <;>
      first
        | exact hx
        | exact List.mem_cons_of_mem _ hx
        | exact foldl_tagFragmentChild_mem _ st x hx
  case arrowFunctionBody body =>
    cases body <;> cases hb : st.2 <;>
      simp only [visitSite, hb, if_true, if_false, Bool.false_eq_true,
        ite_true, ite_false] <;>
      first
        | exact hx
        | exact List.mem_cons_of_mem _ hx
        | exact foldl_tagFragmentChild_mem _ st x hx
  case attributeContainer expression =>
    cases expression
    case jsxElement op => exact List.mem_cons_of_mem _ hx
    case logicalExpression operator left right =>
      show x ∈ (if operator = "&&" then
          match extractJSXFromLogicalAnd
              (Expr.logicalExpression operator left right) with
          | some op => (op.id :: st.1, st.2)
          | none => st
        else st).1
      split
      · split
        · exact List.mem_cons_of_mem _ hx
        · exact hx
      · exact hx
    case conditionalExpression t c a =>
      cases c <;> cases a <;>
        first
          | exact hx
          | exact List.mem_cons_of_mem _ hx
          | exact List.mem_cons_of_mem _ (List.mem_cons_of_mem _ hx)
    all_goals exact hx
  case childContainer expression => exact hx

/-- The topmost set only grows across a whole traversal. -/
theorem foldl_visitSite_mem (sites : List Site) (st : TopmostSet × Bool)
    (x : Nat) (hx : x ∈ st.1) :
    x ∈ (List.foldl visitSite st sites).1 := by
  induction sites generalizing st with
  | nil => exact hx
  | cons s ss ih => exact ih _ (visitSite_mem st s x hx)

/-- Membership after processing the child at one position of a fragment
child list survives the rest of the loop. -/
theorem mem_foldl_tagFragmentChild_here (pre post : List Expr)
    (st : TopmostSet × Bool) (child : Expr) (x : Nat)
    (hx : x ∈ (tagFragmentChild (List.foldl tagFragmentChild st pre)
      child).1) :
    x ∈ (List.foldl tagFragmentChild st (pre ++ child :: post)).1 := by
  rw [List.foldl_append, List.foldl_cons]
  exact foldl_tagFragmentChild_mem post _ x hx

/-- Membership after visiting one node of a traversal survives the rest
of the traversal. -/
theorem mem_foldl_visitSite_here (pre post : List Site)
    (st : TopmostSet × Bool) (s : Site) (x : Nat)
    (hx : x ∈ (visitSite (List.foldl visitSite st pre) s).1) :
    x ∈ (List.foldl visitSite st (pre ++ s :: post)).1 := by
  rw [List.foldl_append, List.foldl_cons]
  exact foldl_visitSite_mem post _ x hx

/-- Claim C1 fails on the code: in a component with two return
statements, each returning a single JSX element directly, only the
first return's opening tag is marked topmost; the shared foundTopmost
flag makes the ReturnStatement visitor skip the second return, so the
element with identity 2 is never marked. -/
theorem c1_code_tags_only_first_return :
    findTopmostJSX
      [Site.returnStatement (Expr.jsxElement ⟨1, []⟩),
       Site.returnStatement (Expr.jsxElement ⟨2, []⟩)] [] = [1] ∧
    2 ∉ findTopmostJSX
      [Site.returnStatement (Expr.jsxElement ⟨1, []⟩),
       Site.returnStatement (Expr.jsxElement ⟨2, []⟩)] [] := by
  exact ⟨rfl, by decide⟩

/-- Claim C2 fails on the code: a first return statement returning a
fragment with one taggable element child sets foundTopmost through
tagFragmentChildren, and the second return statement, returning a single
JSX element, is skipped by the foundTopmost guard: element 2 is never
marked even though the first return went through the fragment branch. -/
theorem c2_fragment_return_suppresses_later_returns :
    findTopmostJSX
      [Site.returnStatement (Expr.jsxFragment [Expr.jsxElement ⟨1, []⟩]),
       Site.returnStatement (Expr.jsxElement ⟨2, []⟩)] [] = [1] ∧
    2 ∉ findTopmostJSX
      [Site.returnStatement (Expr.jsxFragment [Expr.jsxElement ⟨1, []⟩]),
       Site.returnStatement (Expr.jsxElement ⟨2, []⟩)] [] := by
  exact ⟨rfl, by decide⟩

/-- Claim C3 fails on the code: a conditional expression returned as a
component's value (here an arrow-function expression body, and likewise
a block return statement) matches neither the t.isJSXElement nor the
t.isJSXFragment branch of the return-site visitors, so neither branch
opening tag is marked; ternaries are only handled inside fragment
children and attribute expression containers. -/
theorem c3_ternary_return_yields_no_tags :
    findTopmostJSX
      [Site.arrowFunctionBody
        (Expr.conditionalExpression Expr.otherExpr
          (Expr.jsxElement ⟨1, []⟩) (Expr.jsxElement ⟨2, []⟩))] [] = [] ∧
    findTopmostJSX
      [Site.returnStatement
        (Expr.conditionalExpression Expr.otherExpr
          (Expr.jsxElement ⟨1, []⟩) (Expr.jsxElement ⟨2, []⟩))] [] = [] := by
  exact ⟨rfl, rfl⟩

/-- Claim C4, counterexample: a value-interpolation slot in a
markup-attribute position that does not lie inside a scanned component
is never classified. Here the file consists of one variable declarator
whose initializer is a JSX expression (not a function), as in
declaring a routes constant holding a Route element with an element
prop; findTopmostJSX is never invoked on it, and the element with
identity 7 stays unmarked. -/
theorem c4_prop_value_outside_component_unmarked :
    collectTopmost
      [Decl.variableDeclarator false
        [Site.attributeContainer (Expr.jsxElement ⟨7, []⟩)]] = [] ∧
    7 ∉ collectTopmost
      [Decl.variableDeclarator false
        [Site.attributeContainer (Expr.jsxElement ⟨7, []⟩)]] := by
  exact ⟨rfl, by decide⟩

/-- Visiting a JSXExpressionContainer in attribute position never
touches the foundTopmost flag (the JSXExpressionContainer visitor of
findTopmostJSX never assigns it). -/
theorem visitSite_attributeContainer_snd (st : TopmostSet × Bool)
    (e : Expr) : (visitSite st (Site.attributeContainer e)).2 = st.2 := by
  cases e
  case logicalExpression operator left right =>
    show (if operator = "&&" then
        match extractJSXFromLogicalAnd
            (Expr.logicalExpression operator left right) with
        | some op => (op.id :: st.1, st.2)
        | none => st
      else st).2 = st.2
    split
    · split <;> rfl
    · rfl
  case conditionalExpression t c a => cases c <;> cases a <;> rfl
  all_goals rfl

/-- Claim C4 (amended to the scanned-component scope): for a
value-interpolation slot in markup-attribute position inside a scanned
component, the three-way classification is applied wherever the slot
sits in the traversal and whatever the foundTopmost flag is: a direct
element is marked, a logical-and chain resolving to an element marks
that element, a ternary with two element branches marks both, and
visiting such a slot never changes the per-component flag. -/
theorem c4_attribute_slot_marked_in_component :
    (∀ (pre post : List Site) (op : Opening),
      op.id ∈ findTopmostJSX
        (pre ++ Site.attributeContainer (Expr.jsxElement op) :: post) []) ∧
    (∀ (pre post : List Site) (left e : Expr) (op : Opening),
      extractJSXFromLogicalAnd (Expr.logicalExpression "&&" left e) =
        some op →
      op.id ∈ findTopmostJSX
        (pre ++ Site.attributeContainer
          (Expr.logicalExpression "&&" left e) :: post) []) ∧
    (∀ (pre post : List Site) (t : Expr) (opc opa : Opening),
      opc.id ∈ findTopmostJSX
        (pre ++ Site.attributeContainer
          (Expr.conditionalExpression t (Expr.jsxElement opc)
            (Expr.jsxElement opa)) :: post) [] ∧
      opa.id ∈ findTopmostJSX
        (pre ++ Site.attributeContainer
          (Expr.conditionalExpression t (Expr.jsxElement opc)
            (Expr.jsxElement opa)) :: post) []) ∧
    (∀ (st : TopmostSet × Bool) (e : Expr),
      (visitSite st (Site.attributeContainer e)).2 = st.2) := by
  refine ⟨?_, ?_, ?_, visitSite_attributeContainer_snd⟩
  · intro pre post op
    exact mem_foldl_visitSite_here pre post ([], false) _ _
      (List.mem_cons_self _ _)
  · intro pre post left e op h
    apply mem_foldl_visitSite_here pre post ([], false)
    show op.id ∈ (if ("&&" : String) = "&&" then
        match extractJSXFromLogicalAnd
            (Expr.logicalExpression "&&" left e) with
        | some op2 =>
            (op2.id :: (List.foldl visitSite ([], false) pre).1,
             (List.foldl visitSite ([], false) pre).2)
        | none => List.foldl visitSite ([], false) pre
      else List.foldl visitSite ([], false) pre).1
    rw [if_pos rfl, h]
    exact List.mem_cons_self _ _
  · intro pre post t opc opa
    constructor
    · exact mem_foldl_visitSite_here pre post ([], false) _ _
        (List.mem_cons_of_mem _ (List.mem_cons_self _ _))
    · exact mem_foldl_visitSite_here pre post ([], false) _ _
        (List.mem_cons_self _ _)

/-- Witness for claim C4 at concrete inputs: a nested logical-and chain
in a prop value resolves to the element with identity 5, which is
marked even though the component has no return statement at all. -/
theorem c4_attribute_slot_marked_in_component_witness :
    (5 : Nat) ∈ findTopmostJSX
      [Site.attributeContainer
        (Expr.logicalExpression "&&" Expr.otherExpr
          (Expr.logicalExpression "&&" Expr.otherExpr
            (Expr.jsxElement ⟨5, []⟩)))] [] :=
  c4_attribute_slot_marked_in_component.2.1 [] [] Expr.otherExpr
    (Expr.logicalExpression "&&" Expr.otherExpr (Expr.jsxElement ⟨5, []⟩))
    ⟨5, []⟩ (by decide)

/-- Claim C5: at a return site that is reached (flag still false), a
returned fragment has every qualifying top-level child marked wherever
it sits among the children, not only the first: a direct element child,
an expression-container child holding a direct element, one holding a
logical-and chain resolving to an element, and both branches of a
ternary with element branches; and the injector writes one identical
path value on any two marked tags that lack the attribute. -/
theorem c5_fragment_marks_all_qualifying_children :
    (∀ (pre post : List Expr) (tm : TopmostSet) (op : Opening),
      op.id ∈ (visitSite (tm, false)
        (Site.returnStatement
          (Expr.jsxFragment (pre ++ Expr.jsxElement op :: post)))).1) ∧
    (∀ (pre post : List Expr) (tm : TopmostSet) (op : Opening),
      op.id ∈ (visitSite (tm, false)
        (Site.returnStatement
          (Expr.jsxFragment (pre ++
            Expr.jsxExpressionContainer (Expr.jsxElement op) ::
              post)))).1) ∧
    (∀ (pre post : List Expr) (tm : TopmostSet) (left e : Expr)
        (op : Opening),
      extractJSXFromLogicalAnd (Expr.logicalExpression "&&" left e) =
        some op →
      op.id ∈ (visitSite (tm, false)
        (Site.returnStatement
          (Expr.jsxFragment (pre ++
            Expr.jsxExpressionContainer
              (Expr.logicalExpression "&&" left e) :: post)))).1) ∧
    (∀ (pre post : List Expr) (tm : TopmostSet) (t : Expr)
        (opc opa : Opening),
      opc.id ∈ (visitSite (tm, false)
        (Site.returnStatement
          (Expr.jsxFragment (pre ++
            Expr.jsxExpressionContainer
              (Expr.conditionalExpression t (Expr.jsxElement opc)
                (Expr.jsxElement opa)) :: post)))).1 ∧
      opa.id ∈ (visitSite (tm, false)
        (Site.returnStatement
          (Expr.jsxFragment (pre ++
            Expr.jsxExpressionContainer
              (Expr.conditionalExpression t (Expr.jsxElement opc)
                (Expr.jsxElement opa)) :: post)))).1) ∧
    (∀ (topmost : TopmostSet) (statePath : String) (op1 op2 : Opening),
      op1.id ∈ topmost → op2.id ∈ topmost →
      hasFilePathAttribute op1.attributes = false →
      hasFilePathAttribute op2.attributes = false →
      ∃ v, (injectOpening topmost statePath op1).attributes =
              op1.attributes ++ [AttrNode.jsxAttribute "__file-path" v] ∧
           (injectOpening topmost statePath op2).attributes =
              op2.attributes ++ [AttrNode.jsxAttribute "__file-path" v]) := by
  refine ⟨?_, ?_, ?_, ?_, ?_⟩
  · intro pre post tm op
    exact mem_foldl_tagFragmentChild_here pre post (tm, false) _ _
      (List.mem_cons_self _ _)
  · intro pre post tm op
    exact mem_foldl_tagFragmentChild_here pre post (tm, false) _ _
      (List.mem_cons_self _ _)
  · intro pre post tm left e op h
    apply mem_foldl_tagFragmentChild_here pre post (tm, false)
    show op.id ∈ (if ("&&" : String) = "&&" then
        match extractJSXFromLogicalAnd
            (Expr.logicalExpression "&&" left e) with
        | some op2 =>
            (op2.id :: (List.foldl tagFragmentChild (tm, false) pre).1,
             true)
        | none => List.foldl tagFragmentChild (tm, false) pre
      else List.foldl tagFragmentChild (tm, false) pre).1
    rw [if_pos rfl, h]
    exact List.mem_cons_self _ _
  · intro pre post tm t opc opa
    constructor
    · exact mem_foldl_tagFragmentChild_here pre post (tm, false) _ _
        (List.mem_cons_of_mem _ (List.mem_cons_self _ _))
    · exact mem_foldl_tagFragmentChild_here pre post (tm, false) _ _
        (List.mem_cons_self _ _)
  · intro topmost statePath op1 op2 h1 h2 hf1 hf2
    refine ⟨if statePath = "" then "unknown" else statePath, ?_, ?_⟩ <;>
      simp [injectOpening, h1, h2, hf1, hf2]

/-- Witness for claim C5 at concrete inputs: a fragment whose second
child is a conditional chain resolving to element 3 marks element 3,
and injecting two marked bare tags appends the same path value. -/
theorem c5_fragment_marks_all_qualifying_children_witness :
    (3 : Nat) ∈ (visitSite ([], false)
      (Site.returnStatement
        (Expr.jsxFragment
          [Expr.jsxElement ⟨1, []⟩,
           Expr.jsxExpressionContainer
             (Expr.logicalExpression "&&" Expr.otherExpr
               (Expr.jsxElement ⟨3, []⟩))]))).1 ∧
    ∃ v, (injectOpening [4, 9] "src/App.tsx" ⟨4, []⟩).attributes =
            [] ++ [AttrNode.jsxAttribute "__file-path" v] ∧
         (injectOpening [4, 9] "src/App.tsx" ⟨9, []⟩).attributes =
            [] ++ [AttrNode.jsxAttribute "__file-path" v] :=
  ⟨c5_fragment_marks_all_qualifying_children.2.2.1
      [Expr.jsxElement ⟨1, []⟩] [] [] Expr.otherExpr
      (Expr.jsxElement ⟨3, []⟩) ⟨3, []⟩ (by decide),
   c5_fragment_marks_all_qualifying_children.2.2.2.2
      [4, 9] "src/App.tsx" ⟨4, []⟩ ⟨9, []⟩ (by decide) (by decide)
      (by decide) (by decide)⟩

/-- Claim C6: unwrapping a logical-and conjunction follows the
right-hand operand chain recursively to arbitrary depth (one unwrap
step per conjunction, so a chain of three conjunctions resolves to its
final operand), and a conjunction whose final right-hand operand is not
a markup element resolves to nothing: no tag is produced for it in the
fragment-child loop. -/
theorem c6_logical_and_chain_unwrapping :
    (∀ (a b c : Expr) (op : Opening),
      extractJSXFromLogicalAnd
        (Expr.logicalExpression "&&"
          (Expr.logicalExpression "&&"
            (Expr.logicalExpression "&&" a b) c)
          (Expr.jsxElement op)) = some op) ∧
    (∀ (left right : Expr),
      extractJSXFromLogicalAnd (Expr.logicalExpression "&&" left right) =
        extractJSXFromLogicalAnd right) ∧
    (∀ (left right : Expr),
      isJSXElement right = false → isAndLogicalExpression right = false →
      extractJSXFromLogicalAnd (Expr.logicalExpression "&&" left right) =
        none) ∧
    (∀ (st : TopmostSet × Bool) (left right : Expr),
      isJSXElement right = false → isAndLogicalExpression right = false →
      tagFragmentChild st
        (Expr.jsxExpressionContainer
          (Expr.logicalExpression "&&" left right)) = st) := by
  have hchain : ∀ (left right : Expr),
      isJSXElement right = false → isAndLogicalExpression right = false →
      extractJSXFromLogicalAnd (Expr.logicalExpression "&&" left right) =
        none := by
    intro left right h1 h2
    cases right <;>
      simp_all [extractJSXFromLogicalAnd, isJSXElement,
        isAndLogicalExpression]
  refine ⟨fun a b c op => rfl, fun left right => rfl, hchain, ?_⟩
  intro st left right h1 h2
  have hnone := hchain left right h1 h2
  show (if ("&&" : String) = "&&" then
      match extractJSXFromLogicalAnd
          (Expr.logicalExpression "&&" left right) with
      | some op => (op.id :: st.1, true)
      | none => st
    else st) = st
  rw [if_pos rfl, hnone]

/-- Witness for claim C6 at concrete inputs: a conjunction whose final
right operand is a plain value resolves to nothing and produces no tag. -/
theorem c6_logical_and_chain_unwrapping_witness :
    extractJSXFromLogicalAnd
      (Expr.logicalExpression "&&" Expr.otherExpr Expr.otherExpr) =
        none ∧
    tagFragmentChild ([], false)
      (Expr.jsxExpressionContainer
        (Expr.logicalExpression "&&" Expr.otherExpr Expr.otherExpr)) =
      ([], false) :=
  ⟨c6_logical_and_chain_unwrapping.2.2.1 Expr.otherExpr Expr.otherExpr
      rfl rfl,
   c6_logical_and_chain_unwrapping.2.2.2 ([], false) Expr.otherExpr
      Expr.otherExpr rfl rfl⟩

/-- The marker "src/" occurs in the path at character index i. -/
def markerAt (s : String) (i : Nat) : Bool :=
  startsWithChars (s.data.drop i) "src/".data

/-- When the indexOf scan succeeds, the reported index is the least
position (relative to the characters already consumed) at which the
needle occurs. -/
theorem indexOfFrom_some (hay needle : List Char) :
    ∀ (k i : Nat), indexOfFrom hay needle k = some i →
    ∃ d, i = k + d ∧ startsWithChars (List.drop d hay) needle = true ∧
      ∀ j < d, startsWithChars (List.drop j hay) needle = false := by
  induction hay with
  | nil =>
      intro k i h
      unfold indexOfFrom at h
      split at h
      · rename_i hs
        injection h with h2
        subst h2
        exact ⟨0, by omega, hs, fun j hj => absurd hj (Nat.not_lt_zero j)⟩
      · simp at h
  | cons c t ih =>
      intro k i h
      unfold indexOfFrom at h
      split at h
      · rename_i hs
        injection h with h2
        subst h2
        exact ⟨0, by omega, hs, fun j hj => absurd hj (Nat.not_lt_zero j)⟩
      · rename_i hs
        obtain ⟨d, hd, hdw, hmin⟩ := ih (k + 1) i h
        refine ⟨d + 1, by omega, hdw, ?_⟩
        intro j hj
        cases j with
        | zero => simpa using hs
        | succ j2 => exact hmin j2 (by omega)

/-- When the indexOf scan fails, the needle occurs at no position. -/
theorem indexOfFrom_none (hay needle : List Char) :
    ∀ (k : Nat), indexOfFrom hay needle k = none →
    ∀ j, startsWithChars (List.drop j hay) needle = false := by
  induction hay with
  | nil =>
      intro k h j
      unfold indexOfFrom at h
      split at h
      · simp at h
      · rename_i hs
        rw [List.drop_nil]
        simpa using hs
  | cons c t ih =>
      intro k h j
      unfold indexOfFrom at h
      split at h
      · simp at h
      · rename_i hs
        cases j with
        | zero => simpa using hs
        | succ j2 => exact ih (k + 1) h j2

/-- Unfolding lemma for the path normalizer on a present filename. -/
theorem normalizePath_eq (s : String) :
    normalizePath (some s) =
      match indexOfFrom s.data "src/".data 0 with
      | some srcIndex => String.mk (s.data.drop srcIndex)
      | none => s := rfl

/-- Claim C7: when the supplied path contains the marker "src/" with
first occurrence at index i, the normalized path is the suffix starting
at i; when it contains no occurrence, the path is unchanged; when no
path was supplied, the injected attribute value is the placeholder
"unknown". The embedded path derivation is a total function, so it
never raises. -/
theorem c7_path_normalization :
    (∀ (s : String) (i : Nat), markerAt s i = true →
      (∀ j < i, markerAt s j = false) →
      normalizePath (some s) = String.mk (s.data.drop i)) ∧
    (∀ s : String, (∀ j < s.data.length, markerAt s j = false) →
      normalizePath (some s) = s) ∧
    (∀ (topmost : TopmostSet) (op : Opening), op.id ∈ topmost →
      hasFilePathAttribute op.attributes = false →
      (injectOpening topmost (normalizePath none) op).attributes =
        op.attributes ++ [AttrNode.jsxAttribute "__file-path" "unknown"]) := by
  refine ⟨?_, ?_, ?_⟩
  · intro s i hi hmin
    have hx : indexOfFrom s.data "src/".data 0 = some i := by
      cases hx : indexOfFrom s.data "src/".data 0 with
      | none =>
          have hf := indexOfFrom_none s.data "src/".data 0 hx i
          unfold markerAt at hi
          rw [hi] at hf
          cases hf
      | some j =>
          obtain ⟨d, hd, hw, hm⟩ := indexOfFrom_some s.data "src/".data 0 j hx
          have hdj : d = j := by omega
          subst hdj
          have hji : d = i := by
            by_contra hne
            rcases Nat.lt_or_ge d i with hlt | hge
            · have hc := hmin d hlt
              unfold markerAt at hc
              rw [hw] at hc
              cases hc
            · have hc := hm i (by omega)
              unfold markerAt at hi
              rw [hi] at hc
              cases hc
          rw [hji]
    rw [normalizePath_eq, hx]
  · intro s hall
    have hx : indexOfFrom s.data "src/".data 0 = none := by
      cases hx : indexOfFrom s.data "src/".data 0 with
      | none => rfl
      | some j =>
          obtain ⟨d, hd, hw, _⟩ := indexOfFrom_some s.data "src/".data 0 j hx
          have hlt : d < s.data.length := by
            by_contra hge
            have hnil : s.data.drop d = [] :=
              List.drop_eq_nil_of_le (by omega)
            rw [hnil] at hw
            exact absurd hw (by decide)
          have hc := hall d hlt
          unfold markerAt at hc
          rw [hw] at hc
          cases hc
    rw [normalizePath_eq, hx]
  · intro topmost op hmem hno
    have hn : normalizePath none = "" := rfl
    rw [hn]
    simp [injectOpening, hmem, hno]

/-- Witness for claim C7 at concrete inputs: a path whose first marker
occurrence is at index 13 is trimmed there, a marker-free path is
unchanged, and with no path supplied the injected value is "unknown". -/
theorem c7_path_normalization_witness :
    normalizePath (some "/abs/project/src/pages/Foo.tsx") =
      "src/pages/Foo.tsx" ∧
    normalizePath (some "noMarkerHere.tsx") = "noMarkerHere.tsx" ∧
    (injectOpening [3] (normalizePath none) ⟨3, []⟩).attributes =
      [] ++ [AttrNode.jsxAttribute "__file-path" "unknown"] :=
  ⟨(c7_path_normalization.1 "/abs/project/src/pages/Foo.tsx" 13
      (by decide) (by decide)).trans (by decide),
   c7_path_normalization.2.1 "noMarkerHere.tsx" (by decide),
   c7_path_normalization.2.2 [3] ⟨3, []⟩ (by decide) (by decide)⟩

/-- Claim C9: a return site (block return statement or arrow expression
body) whose expression is neither a JSX element nor a JSX fragment
leaves the visitor state exactly unchanged: no opening tag is marked,
and the visitor is a total function, so no error can be raised. -/
theorem c9_non_markup_return_adds_no_tag
    (st : TopmostSet × Bool) (argument : Expr)
    (hel : isJSXElement argument = false)
    (hfr : isJSXFragment argument = false) :
    visitSite st (Site.returnStatement argument) = st ∧
    visitSite st (Site.arrowFunctionBody argument) = st := by
  cases argument <;> simp_all [visitSite, isJSXElement, isJSXFragment]

/-- Witness for claim C9 at a concrete input: a return of a plain
non-markup value (null, a string, ...) changes nothing. -/
theorem c9_non_markup_return_adds_no_tag_witness :
    visitSite ([], false) (Site.returnStatement Expr.otherExpr) =
      ([], false) ∧
    visitSite ([], false) (Site.arrowFunctionBody Expr.otherExpr) =
      ([], false) :=
  c9_non_markup_return_adds_no_tag ([], false) Expr.otherExpr rfl rfl

/-- An attribute list extended with the injected attribute passes the
duplicate check. -/
theorem hasFilePathAttribute_append_injected (attrs : List AttrNode)
    (v : String) :
    hasFilePathAttribute
      (attrs ++ [AttrNode.jsxAttribute "__file-path" v]) = true := by
  simp [hasFilePathAttribute, isFilePathAttr]

/-- Appending the injected attribute raises the reserved-name count by
exactly one. -/
theorem countFilePathAttributes_append_injected (attrs : List AttrNode)
    (v : String) :
    countFilePathAttributes
      (attrs ++ [AttrNode.jsxAttribute "__file-path" v]) =
      countFilePathAttributes attrs + 1 := by
  simp [countFilePathAttributes, isFilePathAttr]

/-- A list with no reserved-name attribute fails the duplicate check. -/
theorem hasFilePathAttribute_eq_false_of_count (attrs : List AttrNode)
    (h : countFilePathAttributes attrs = 0) :
    hasFilePathAttribute attrs = false := by
  simp only [countFilePathAttributes, List.countP_eq_zero] at h
  simp only [hasFilePathAttribute, List.any_eq_false]
  exact h

/-- Claim C8: the injector is idempotent on every opening tag: applying
it twice equals applying it once, a tag already carrying a
reserved-name attribute is returned untouched, and a tag starting with
no reserved-name attribute never ends up with more than one. -/
theorem c8_injector_idempotent :
    ∀ (topmost : TopmostSet) (statePath : String) (op : Opening),
      injectOpening topmost statePath (injectOpening topmost statePath op) =
        injectOpening topmost statePath op ∧
      (hasFilePathAttribute op.attributes = true →
        injectOpening topmost statePath op = op) ∧
      (countFilePathAttributes op.attributes = 0 →
        countFilePathAttributes
          (injectOpening topmost statePath
            (injectOpening topmost statePath op)).attributes ≤ 1) := by
  intro topmost statePath op
  by_cases hmem : op.id ∈ topmost
  · by_cases hattr : hasFilePathAttribute op.attributes = true
    · have h1 : injectOpening topmost statePath op = op := by
        simp [injectOpening, hmem, hattr]
      refine ⟨?_, fun _ => h1, ?_⟩
      · rw [h1]; exact h1
      · intro hcount
        have hf := hasFilePathAttribute_eq_false_of_count _ hcount
        rw [hattr] at hf
        cases hf
    · have hattr2 : hasFilePathAttribute op.attributes = false := by
        simpa using hattr
      have h1 : injectOpening topmost statePath op =
          { op with attributes := op.attributes ++
              [AttrNode.jsxAttribute "__file-path"
                (if statePath = "" then "unknown" else statePath)] } := by
        simp [injectOpening, hmem, hattr2]
      have h2 : injectOpening topmost statePath
          (injectOpening topmost statePath op) =
          injectOpening topmost statePath op := by
        rw [h1]
        simp [injectOpening, hmem, hasFilePathAttribute_append_injected]
      refine ⟨h2, ?_, ?_⟩
      · intro hc
        rw [hattr2] at hc
        cases hc
      · intro hcount
        rw [h2, h1]
        show countFilePathAttributes
          (op.attributes ++
            [AttrNode.jsxAttribute "__file-path"
              (if statePath = "" then "unknown" else statePath)]) ≤ 1
        rw [countFilePathAttributes_append_injected, hcount]
  · have h1 : injectOpening topmost statePath op = op := by
      simp [injectOpening, hmem]
    refine ⟨?_, fun _ => h1, ?_⟩
    · rw [h1]; exact h1
    · intro hcount
      rw [h1, h1, hcount]
      decide

/-- Witness for claim C8 at concrete inputs: injecting a bare marked
tag twice equals injecting it once, a marked tag already carrying the
attribute is untouched, and a bare marked tag injected twice carries
the attribute once. -/
theorem c8_injector_idempotent_witness :
    injectOpening [5] "src/a.tsx" (injectOpening [5] "src/a.tsx" ⟨5, []⟩) =
      injectOpening [5] "src/a.tsx" ⟨5, []⟩ ∧
    injectOpening [5] "src/a.tsx"
        ⟨5, [AttrNode.jsxAttribute "__file-path" "p"]⟩ =
      ⟨5, [AttrNode.jsxAttribute "__file-path" "p"]⟩ ∧
    countFilePathAttributes
      (injectOpening [5] "src/a.tsx"
        (injectOpening [5] "src/a.tsx" ⟨5, []⟩)).attributes ≤ 1 :=
  ⟨(c8_injector_idempotent [5] "src/a.tsx" ⟨5, []⟩).1,
   (c8_injector_idempotent [5] "src/a.tsx"
      ⟨5, [AttrNode.jsxAttribute "__file-path" "p"]⟩).2.1 (by decide),
   (c8_injector_idempotent [5] "src/a.tsx" ⟨5, []⟩).2.2 (by decide)⟩

/-- Claim C10: the injector is frame-preserving: an opening tag whose
identity is not in the topmost set is returned completely unchanged,
and a tag in the set without the reserved attribute keeps its identity
and all pre-existing attributes in order, with exactly one new
attribute appended at the end. -/
theorem c10_injector_frame :
    ∀ (topmost : TopmostSet) (statePath : String) (op : Opening),
      (op.id ∉ topmost → injectOpening topmost statePath op = op) ∧
      (op.id ∈ topmost → hasFilePathAttribute op.attributes = false →
        (injectOpening topmost statePath op).id = op.id ∧
        (injectOpening topmost statePath op).attributes =
          op.attributes ++
            [AttrNode.jsxAttribute "__file-path"
              (if statePath = "" then "unknown" else statePath)]) := by
  intro topmost statePath op
  constructor
  · intro hmem
    simp [injectOpening, hmem]
  · intro hmem hattr
    constructor <;> simp [injectOpening, hmem, hattr]

/-- Witness for claim C10 at concrete inputs: an unmarked tag is left
unchanged, and a marked tag keeps its spread attribute and gains the
path attribute at the end. -/
theorem c10_injector_frame_witness :
    injectOpening [5] "src/a.tsx" ⟨6, [AttrNode.spreadAttribute]⟩ =
      ⟨6, [AttrNode.spreadAttribute]⟩ ∧
    (injectOpening [5] "src/a.tsx" ⟨5, [AttrNode.spreadAttribute]⟩).attributes
      = [AttrNode.spreadAttribute] ++
        [AttrNode.jsxAttribute "__file-path"
          (if ("src/a.tsx" : String) = "" then "unknown" else "src/a.tsx")] :=
  ⟨(c10_injector_frame [5] "src/a.tsx" ⟨6, [AttrNode.spreadAttribute]⟩).1
      (by decide),
   ((c10_injector_frame [5] "src/a.tsx" ⟨5, [AttrNode.spreadAttribute]⟩).2
      (by decide) (by decide)).2⟩

end ComponentTagger
